import Mathlib

/-!
Shallow embedding of the Whisper subprocess supervisor
(`src/whisper.ts`-style module, given as `src/unnamed/part_000`).

The source is single-threaded, event-driven TypeScript. Module-level
mutable state is embedded as an explicit `WhisperState` record; each
event handler of the source becomes a pure function
`WhisperState → WhisperState × List Output`, where `Output` records the
externally observable effects (promise settlements, writes to the
worker's stdin, process spawns/kills, log lines, scheduled timers).

Per-request timeout timers live inside the pending map entries in the
source and are cleared on every removal path, so in the embedding a
timer is armed for an id exactly while the id is a key of
`pendingRequests`; a cleared Node timer never fires, so the
timer-expiry event is modelled as a no-op when the id is absent.

JavaScript truthiness tests (`data.ready`, `!id`, `data.error`,
`data.text || ''`, `if (model)`) are embedded via an explicit `JsVal`
type with a `truthy` predicate.
-/

/-- Subset of JavaScript runtime values relevant to the protocol fields,
with JS truthiness. -/
inductive JsVal where
  | undefined
  | null
  | bool (b : Bool)
  | str (s : String)
  | num (n : Int)
  deriving DecidableEq

/-- JavaScript truthiness of a `JsVal`. -/
def truthy : JsVal → Bool
  | .undefined => false
  | .null => false
  | .bool b => b
  | .str s => !s.isEmpty
  | .num n => n != 0

/-- A worker stdout line after `JSON.parse`, restricted to the fields the
handler reads: `ready`, `id`, `error`, `text`. A field absent from the
JSON object is `JsVal.undefined`. -/
structure LineData where
  ready : JsVal := .undefined
  id : JsVal := .undefined
  error : JsVal := .undefined
  text : JsVal := .undefined
  deriving DecidableEq

/-- The outgoing request object `{ id, file }` built by `transcribe`
(`JSON.stringify({ id, file }) + '\n'` in the source). -/
structure RequestMsg where
  id : String
  file : String
  deriving DecidableEq

/-- Reason attached to a rejected pending request, one per `reject` site
in the source. -/
inductive RejectReason where
  | stopping            -- Error('Whisper server stopping')
  | timeout             -- Error('Whisper transcription timed out')
  | exited              -- Error('Whisper server exited')
  | procError           -- Error('Whisper server process error')
  | workerError (v : JsVal)   -- Error(data.error)
  deriving DecidableEq

/-- Externally observable effects of one handler invocation. -/
inductive Output where
  | resolved (id : String) (v : JsVal)        -- pending.resolve(...)
  | rejected (id : String) (r : RejectReason) -- pending.reject(...) / req.reject(...)
  | notReadyRejected                          -- transcribe's immediate reject
  | wrote (req : RequestMsg)                  -- whisperProcess.stdin.write(...)
  | spawned (model : String)                  -- spawn('python3', ...)
  | killed                                    -- whisperProcess.kill('SIGTERM')
  | scheduledRespawn (delayMs : Nat)          -- setTimeout(() => spawnWhisper(), 2000)
  | logged (msg : String)                     -- logger.* calls
  deriving DecidableEq

/-- Module-level mutable state of the source file. `whisperProcess` is
process presence (`whisperProcess !== null`); `pendingRequests` is the
key set of the pending map (the stored callbacks are represented by the
`resolved`/`rejected` outputs keyed by id, and the stored timer is armed
iff the key is present). -/
structure WhisperState where
  whisperProcess : Bool
  ready : Bool
  pendingRequests : List String
  requestCounter : Nat
  restartAttempts : List Nat
  circuitBroken : Bool
  whisperModel : String
  deriving DecidableEq

/-- Initial values of the module-level variables. -/
def initialState : WhisperState :=
  { whisperProcess := false
    ready := false
    pendingRequests := []
    requestCounter := 0
    restartAttempts := []
    circuitBroken := false
    whisperModel := "medium" }

def TRANSCRIBE_TIMEOUT : Nat := 120000
def MAX_RESTART_ATTEMPTS : Nat := 5
def RESTART_WINDOW : Nat := 60000

/-- Map.set on the key set: a fresh key is appended, an existing key keeps
its position (the entry value is replaced in the source, which the key
set does not record). -/
def insertKey (l : List String) (k : String) : List String :=
  if l.contains k then l else l ++ [k]

/-- Source: isWhisperReady. -/
def isWhisperReady (s : WhisperState) : Bool :=
  s.ready && s.whisperProcess && !s.circuitBroken

/-- Source: stopWhisper. Sets ready := false and circuitBroken := true,
rejects every pending request with the stopping reason (clearing its
timer), clears the map, and kills the process when one is present. -/
def stopWhisper (s : WhisperState) : WhisperState × List Output :=
  let rejections := s.pendingRequests.map (fun id => Output.rejected id .stopping)
  let s' : WhisperState :=
    { s with ready := false, circuitBroken := true, pendingRequests := [],
             whisperProcess := false }
  if s.whisperProcess then
    (s', rejections ++ [Output.killed, Output.logged "Whisper server stopped"])
  else
    (s', rejections)

/-- Request identifier string for counter value n. -/
def mkReqId (n : Nat) : String :=
  "req-" ++ toString n

/-- Source: transcribe. When not ready (or no process, or breaker open)
the returned promise is rejected immediately and nothing else happens.
Otherwise the counter is bumped, a fresh id is registered in the pending
map with a 120 s timer armed, and the request line is written. -/
def transcribe (s : WhisperState) (filePath : String) : WhisperState × List Output :=
  if !s.ready || !s.whisperProcess || s.circuitBroken then
    (s, [Output.notReadyRejected])
  else
    let counter := s.requestCounter + 1
    let id := mkReqId counter
    ({ s with requestCounter := counter,
              pendingRequests := insertKey s.pendingRequests id },
     [Output.wrote { id := id, file := filePath }])

/-- The pruning step of spawnWhisper:
`restartAttempts.filter((t) => now - t < RESTART_WINDOW)`. -/
def pruneLedger (attempts : List Nat) (now : Nat) : List Nat :=
  attempts.filter (fun t => now - t < RESTART_WINDOW)

/-- Source: spawnWhisper. Refuses when the breaker is open; prunes the
ledger, trips the breaker (performing no spawn) when the pruned ledger
already holds MAX_RESTART_ATTEMPTS entries; otherwise records the
attempt and spawns a fresh worker wired to the line handlers. -/
def spawnWhisper (s : WhisperState) (now : Nat) : WhisperState × List Output :=
  if s.circuitBroken then
    (s, [Output.logged "Whisper circuit breaker open, not restarting"])
  else
    let pruned := pruneLedger s.restartAttempts now
    if MAX_RESTART_ATTEMPTS ≤ pruned.length then
      ({ s with restartAttempts := pruned, circuitBroken := true },
       [Output.logged "circuit breaker open"])
    else
      ({ s with restartAttempts := pruned ++ [now], ready := false,
                whisperProcess := true },
       [Output.logged "Starting Whisper server", Output.spawned s.whisperModel])

/-- Source: startWhisper. `if (model) whisperModel = model;` (a truthy,
i.e. nonempty, argument replaces the model) then spawnWhisper. -/
def startWhisper (s : WhisperState) (model : Option String) (now : Nat) :
    WhisperState × List Output :=
  let s' := match model with
    | some m => if m.isEmpty then s else { s with whisperModel := m }
    | none => s
  spawnWhisper s' now

/-- Source: rejectAllPending. Rejects every pending request with the
given reason (clearing its timer) and clears the map. -/
def rejectAllPending (s : WhisperState) (reason : RejectReason) :
    WhisperState × List Output :=
  ({ s with pendingRequests := [] },
   s.pendingRequests.map (fun id => Output.rejected id reason))

/-- Map.get on the key set with a JsVal key: only a string key can match
(the map's keys are the strings put there by transcribe). -/
def lookupPending (pending : List String) (id : JsVal) : Option String :=
  match id with
  | .str k => if pending.contains k then some k else none
  | _ => none

/-- Source: the stdoutRl.on('line') handler, after JSON.parse; `none`
is a line JSON.parse threw on (caught and logged). A truthy ready field
flips the ready flag and resets the ledger. Otherwise a falsy id drops
the line; an id matching no pending entry drops the line; a match
removes the entry, clears its timer, and rejects on a truthy error field
or resolves with `data.text || ''`. -/
def handleLine (s : WhisperState) (d : Option LineData) : WhisperState × List Output :=
  match d with
  | none => (s, [Output.logged "Failed to parse Whisper server output"])
  | some data =>
    if truthy data.ready then
      ({ s with ready := true, restartAttempts := [] },
       [Output.logged "Whisper server ready"])
    else if !truthy data.id then
      (s, [])
    else
      match lookupPending s.pendingRequests data.id with
      | none => (s, [])
      | some k =>
        let s' := { s with pendingRequests := s.pendingRequests.erase k }
        if truthy data.error then
          (s', [Output.rejected k (.workerError data.error)])
        else
          (s', [Output.resolved k (if truthy data.text then data.text else .str "")])

/-- Expiry of the 120 s timer armed for `id` by transcribe. The timer is
cleared on every path that removes the entry, so a fire with the id
absent cannot happen and is modelled as a no-op; when the entry is still
pending the handler deletes it and rejects with the timeout reason. -/
def handleTimeout (s : WhisperState) (id : String) : WhisperState × List Output :=
  if s.pendingRequests.contains id then
    ({ s with pendingRequests := s.pendingRequests.erase id },
     [Output.rejected id .timeout])
  else
    (s, [])

/-- Source: the proc.on('exit') handler. Drops the handle, rejects all
pending requests, and (breaker permitting) schedules one respawn after
the 2000 ms settle delay. -/
def handleExit (s : WhisperState) : WhisperState × List Output :=
  let s' := { s with ready := false, whisperProcess := false }
  let (s'', rej) := rejectAllPending s' .exited
  if s''.circuitBroken then
    (s'', Output.logged "Whisper server exited" :: rej)
  else
    (s'', Output.logged "Whisper server exited" :: rej ++ [Output.scheduledRespawn 2000])

/-- Source: the proc.on('error') handler. Drops the handle, rejects all
pending requests, and calls spawnWhisper synchronously. -/
def handleError (s : WhisperState) (now : Nat) : WhisperState × List Output :=
  let s1 := { s with ready := false, whisperProcess := false }
  let (s2, rej) := rejectAllPending s1 .procError
  let (s3, outs) := spawnWhisper s2 now
  (s3, Output.logged "Whisper server process error" :: rej ++ outs)

/-- The events the single-threaded runtime can deliver to the module.
`now` parameters stand for Date.now() at the moment the handler runs. -/
inductive Event where
  | line (d : Option LineData)
  | timerFires (id : String)
  | transcribeCall (file : String)
  | stopCall
  | startCall (model : Option String) (now : Nat)
  | exitEvt
  | errorEvt (now : Nat)
  | respawnFires (now : Nat)

/-- One atomic handler invocation (handlers run to completion before the
next event is delivered). -/
def step (s : WhisperState) : Event → WhisperState × List Output
  | .line d => handleLine s d
  | .timerFires id => handleTimeout s id
  | .transcribeCall f => transcribe s f
  | .stopCall => stopWhisper s
  | .startCall m now => startWhisper s m now
  | .exitEvt => handleExit s
  | .errorEvt now => handleError s now
  | .respawnFires now => spawnWhisper s now

/-- Whether an output is a terminal callback (resolve or reject) for the
request with identifier `id`. -/
def isTerminalFor (id : String) : Output → Bool
  | .resolved i _ => i == id
  | .rejected i _ => i == id
  | _ => false

/-- Number of terminal callbacks fired for `id` in an output list. -/
def terminalsFor (id : String) (outs : List Output) : Nat :=
  outs.countP (isTerminalFor id)

/-- Whether an output is a terminal callback for any request. -/
def isTerminal : Output → Bool
  | .resolved _ _ => true
  | .rejected _ _ => true
  | _ => false

/-- Whether an output is a spawn of a new worker process. -/
def isSpawn : Output → Bool
  | .spawned _ => true
  | _ => false

/-- The worker's success/error response line echoing the id of a request
object (the worker copies the request's id field into its reply). -/
def echoResponse (req : RequestMsg) (error text : JsVal) : LineData :=
  { ready := .undefined, id := .str req.id, error := error, text := text }

/-! Example states used by witnesses. -/

/-- A state in which the supervisor is ready with no pending requests. -/
def readyState : WhisperState :=
  { whisperProcess := true
    ready := true
    pendingRequests := []
    requestCounter := 0
    restartAttempts := []
    circuitBroken := false
    whisperModel := "medium" }

/-- A ready state with two pending requests. -/
def twoPendingState : WhisperState :=
  { readyState with pendingRequests := ["req-1", "req-2"], requestCounter := 2 }

/-! Helper lemmas shared across the claim theorems. -/

theorem terminalsFor_rejected_map (id : String) (r : RejectReason) (l : List String) :
    terminalsFor id (l.map fun j => Output.rejected j r) = l.count id := by
  induction l with
  | nil => rfl
  | cons a t ih =>
    simp only [List.map_cons, terminalsFor, List.countP_cons, List.count_cons] at *
    rw [ih]
    simp [isTerminalFor]

theorem filter_isTerminal_rejected_map (r : RejectReason) (l : List String) :
    (l.map fun j => Output.rejected j r).filter isTerminal
      = l.map fun j => Output.rejected j r := by
  induction l with
  | nil => rfl
  | cons a t ih => simp [isTerminal, ih]

/-- C4: transcribe called while the supervisor is not ready (flag down,
process absent, or breaker open) rejects immediately with the not-ready
error and mutates nothing: no pending entry, unchanged counter, no
armed timer, nothing written to the worker. -/
theorem transcribe_notReady_rejects_without_mutation
    (s : WhisperState) (f : String) (h : isWhisperReady s = false) :
    transcribe s f = (s, [Output.notReadyRejected])
    ∧ (transcribe s f).1.pendingRequests = s.pendingRequests
    ∧ (transcribe s f).1.requestCounter = s.requestCounter
    ∧ ∀ req, Output.wrote req ∉ (transcribe s f).2 := by
  have hcond : (!s.ready || !s.whisperProcess || s.circuitBroken) = true := by
    cases hr : s.ready <;> cases hp : s.whisperProcess <;> cases hb : s.circuitBroken <;>
      simp_all [isWhisperReady]
  refine ⟨?_, ?_, ?_, ?_⟩ <;> simp [transcribe, hcond]

/-- Witness for C4 at a concrete not-ready state. -/
theorem transcribe_notReady_witness :
    isWhisperReady initialState = false
    ∧ transcribe initialState "a.wav" = (initialState, [Output.notReadyRejected]) :=
  ⟨by decide,
   (transcribe_notReady_rejects_without_mutation initialState "a.wav" (by decide)).1⟩

/-- C5: stopWhisper fails every pending request exactly once with the
stopping reason, clears the pending map, kills the worker exactly when
one is present, and leaves the supervisor not ready. -/
theorem stopWhisper_terminates_everything (s : WhisperState) :
    (stopWhisper s).1.pendingRequests = []
    ∧ (stopWhisper s).2.filter isTerminal
        = (s.pendingRequests.map fun id => Output.rejected id .stopping)
    ∧ (Output.killed ∈ (stopWhisper s).2 ↔ s.whisperProcess = true)
    ∧ isWhisperReady (stopWhisper s).1 = false := by
  refine ⟨?_, ?_, ?_, ?_⟩ <;>
    cases hp : s.whisperProcess <;>
      simp [stopWhisper, hp, isWhisperReady, filter_isTerminal_rejected_map, isTerminal]

/-- Witness for C5 at a concrete state with two pending requests. -/
theorem stopWhisper_terminates_everything_witness :
    (stopWhisper twoPendingState).1.pendingRequests = []
    ∧ (stopWhisper twoPendingState).2.filter isTerminal
        = (twoPendingState.pendingRequests.map fun id => Output.rejected id .stopping)
    ∧ (Output.killed ∈ (stopWhisper twoPendingState).2 ↔ twoPendingState.whisperProcess = true)
    ∧ isWhisperReady (stopWhisper twoPendingState).1 = false :=
  stopWhisper_terminates_everything twoPendingState

/-- C6: a worker exit with the breaker closed schedules a respawn after
the 2000 ms settle delay, stopWhisper sets the breaker flag, and the
spawn step run on any post-stop state observes the flag and performs no
spawn: the scheduled respawn never produces a new worker. -/
theorem stop_blocks_scheduled_respawn (s : WhisperState) (now : Nat) :
    (s.circuitBroken = false → Output.scheduledRespawn 2000 ∈ (handleExit s).2)
    ∧ (stopWhisper s).1.circuitBroken = true
    ∧ spawnWhisper (stopWhisper s).1 now
        = ((stopWhisper s).1, [Output.logged "Whisper circuit breaker open, not restarting"])
    ∧ (∀ o ∈ (spawnWhisper (stopWhisper s).1 now).2, isSpawn o = false)
    ∧ (spawnWhisper (stopWhisper s).1 now).1.whisperProcess = false := by
  have hstop : (stopWhisper s).1.circuitBroken = true := by
    cases hp : s.whisperProcess <;> simp [stopWhisper, hp]
  have hproc : (stopWhisper s).1.whisperProcess = false := by
    cases hp : s.whisperProcess <;> simp [stopWhisper, hp]
  refine ⟨fun hb => ?_, hstop, ?_, ?_, ?_⟩
  · simp [handleExit, rejectAllPending, hb]
  · simp [spawnWhisper, hstop]
  · simp [spawnWhisper, hstop, isSpawn]
  · simp [spawnWhisper, hstop, hproc]

/-- Witness for C6 at a concrete ready state with the breaker closed. -/
theorem stop_blocks_scheduled_respawn_witness :
    Output.scheduledRespawn 2000 ∈ (handleExit readyState).2
    ∧ (stopWhisper readyState).1.circuitBroken = true
    ∧ spawnWhisper (stopWhisper readyState).1 5000
        = ((stopWhisper readyState).1,
           [Output.logged "Whisper circuit breaker open, not restarting"]) :=
  ⟨(stop_blocks_scheduled_respawn readyState 5000).1 (by decide),
   (stop_blocks_scheduled_respawn readyState 5000).2.1,
   (stop_blocks_scheduled_respawn readyState 5000).2.2.1⟩

/-- C7: a decoded line with a truthy ready field — whatever the other
fields, an id included — flips the ready flag on, resets the restart
ledger to empty, and neither resolves nor fails any pending request. -/
theorem ready_line_sets_ready_resets_ledger
    (s : WhisperState) (d : LineData) (h : truthy d.ready = true) :
    handleLine s (some d)
      = ({ s with ready := true, restartAttempts := [] },
         [Output.logged "Whisper server ready"])
    ∧ (handleLine s (some d)).1.pendingRequests = s.pendingRequests
    ∧ ∀ id, terminalsFor id (handleLine s (some d)).2 = 0 := by
  refine ⟨?_, ?_, ?_⟩ <;> simp [handleLine, h, terminalsFor, isTerminalFor]

/-- Witness for C7: a ready line that also carries an id matching a
pending entry is still treated purely as a readiness signal. -/
theorem ready_line_witness :
    truthy (LineData.ready { ready := .bool true, id := .str "req-1" }) = true
    ∧ handleLine twoPendingState (some { ready := .bool true, id := .str "req-1" })
        = ({ twoPendingState with ready := true, restartAttempts := [] },
           [Output.logged "Whisper server ready"])
    ∧ (handleLine twoPendingState
        (some { ready := .bool true, id := .str "req-1" })).1.pendingRequests
        = twoPendingState.pendingRequests :=
  ⟨by decide,
   (ready_line_sets_ready_resets_ledger twoPendingState
      { ready := .bool true, id := .str "req-1" } (by decide)).1,
   (ready_line_sets_ready_resets_ledger twoPendingState
      { ready := .bool true, id := .str "req-1" } (by decide)).2.1⟩

/-- C8: a line that fails to parse is logged and dropped; a parsed line
with no truthy ready field and a falsy id is dropped; one whose id
matches no pending entry is dropped. In each case nothing is raised to
a caller (no terminal callback fires) and state is left unchanged. -/
theorem bad_lines_are_dropped :
    (∀ s : WhisperState,
       handleLine s none = (s, [Output.logged "Failed to parse Whisper server output"])
       ∧ ∀ id, terminalsFor id (handleLine s none).2 = 0)
    ∧ (∀ (s : WhisperState) (d : LineData),
         truthy d.ready = false → truthy d.id = false →
         handleLine s (some d) = (s, []))
    ∧ (∀ (s : WhisperState) (d : LineData),
         truthy d.ready = false → lookupPending s.pendingRequests d.id = none →
         handleLine s (some d) = (s, [])) := by
  refine ⟨fun s => ⟨rfl, fun id => ?_⟩, fun s d h1 h2 => ?_, fun s d h1 h2 => ?_⟩
  · simp [handleLine, terminalsFor, isTerminalFor]
  · simp [handleLine, h1, h2]
  · cases ht : truthy d.id
    · simp [handleLine, h1, ht]
    · simp [handleLine, h1, ht, h2]

/-- Witness for C8: an unparseable line, a parsed line with no id, and a
response carrying an unknown id are all dropped without touching the two
pending entries. -/
theorem bad_lines_are_dropped_witness :
    handleLine twoPendingState none
      = (twoPendingState, [Output.logged "Failed to parse Whisper server output"])
    ∧ handleLine twoPendingState (some { text := .str "hello" }) = (twoPendingState, [])
    ∧ handleLine twoPendingState (some { id := .str "req-9", text := .str "hello" })
        = (twoPendingState, []) :=
  ⟨(bad_lines_are_dropped.1 twoPendingState).1,
   bad_lines_are_dropped.2.1 twoPendingState { text := .str "hello" }
     (by decide) (by decide),
   bad_lines_are_dropped.2.2 twoPendingState { id := .str "req-9", text := .str "hello" }
     (by decide) (by decide)⟩

/-- C10: a response line whose id matches a pending entry and whose
error and text fields are both falsy (absent text included) resolves the
caller with the empty string — a success, never a failure — and an
absent text field is indistinguishable from an explicit empty string. -/
theorem falsy_text_resolves_with_empty_string
    (s : WhisperState) (d : LineData) (k : String)
    (hid : d.id = .str k) (hmem : s.pendingRequests.contains k = true)
    (hready : truthy d.ready = false) (htruthy : truthy d.id = true)
    (herr : truthy d.error = false) (htext : truthy d.text = false) :
    handleLine s (some d)
      = ({ s with pendingRequests := s.pendingRequests.erase k },
         [Output.resolved k (.str "")])
    ∧ handleLine s (some d) = handleLine s (some { d with text := .str "" })
    ∧ ∀ r, Output.rejected k r ∉ (handleLine s (some d)).2 := by
  have htk : truthy (JsVal.str k) = true := hid ▸ htruthy
  have hm : k ∈ s.pendingRequests := by simpa using hmem
  have hmain : handleLine s (some d)
      = ({ s with pendingRequests := s.pendingRequests.erase k },
         [Output.resolved k (.str "")]) := by
    simp [handleLine, hready, htk, hid, lookupPending, hm, herr, htext]
  have hexp : handleLine s (some { d with text := .str "" })
      = ({ s with pendingRequests := s.pendingRequests.erase k },
         [Output.resolved k (.str "")]) := by
    have hempty : truthy (JsVal.str "") = false := by decide
    simp [handleLine, hready, htk, hid, lookupPending, hm, herr, hempty]
  refine ⟨hmain, hmain.trans hexp.symm, fun r => ?_⟩
  simp [hmain]

/-- Witness for C10: a response for the pending id "req-1" with text
absent resolves it with the empty string. -/
theorem falsy_text_witness :
    handleLine twoPendingState (some { id := .str "req-1" })
      = ({ twoPendingState with pendingRequests := ["req-2"] },
         [Output.resolved "req-1" (.str "")])
    ∧ handleLine twoPendingState (some { id := .str "req-1" })
        = handleLine twoPendingState (some { id := .str "req-1", text := .str "" }) := by
  have h := falsy_text_resolves_with_empty_string twoPendingState
    { id := .str "req-1" } "req-1" rfl (by decide) (by decide) (by decide)
    (by decide) (by decide)
  refine ⟨h.1.trans ?_, h.2.1⟩
  simp [twoPendingState, readyState, List.erase]

/-- State reached from the initial state by five spawn attempts at times
0, 1, 2, 3, 4 ms (all within one 60-second span). -/
def attemptsFiveState : WhisperState :=
  (spawnWhisper
    ((spawnWhisper
      ((spawnWhisper
        ((spawnWhisper ((spawnWhisper initialState 0).1) 1).1) 2).1) 3).1) 4).1

/-- Counterexample to C2 as stated: the 5th spawn attempt within a
60-second span IS performed and the breaker does not trip on it — the
ledger check runs before the current attempt is recorded, so only 4
prior attempts are counted at that point. -/
theorem breaker_fifth_attempt_counterexample :
    Output.spawned "medium"
        ∈ (spawnWhisper
            ((spawnWhisper
              ((spawnWhisper
                ((spawnWhisper ((spawnWhisper initialState 0).1) 1).1) 2).1) 3).1) 4).2
    ∧ (spawnWhisper
        ((spawnWhisper
          ((spawnWhisper
            ((spawnWhisper ((spawnWhisper initialState 0).1) 1).1) 2).1) 3).1) 4).1.circuitBroken
        = false := by
  decide

/-- C2 amended: with the breaker closed, a spawn attempt trips the
breaker (no spawn performed, ledger kept pruned) exactly when at least
MAX_RESTART_ATTEMPTS = 5 prior recorded attempts fall inside the
trailing 60-second window — i.e. on the 6th in-window attempt, not the
5th — and is performed (appending its own timestamp to the pruned
ledger) when fewer than 5 prior attempts remain after pruning. -/
theorem breaker_trips_on_sixth_inwindow_attempt
    (s : WhisperState) (now : Nat) (h : s.circuitBroken = false) :
    (MAX_RESTART_ATTEMPTS ≤ (pruneLedger s.restartAttempts now).length →
       spawnWhisper s now
         = ({ s with restartAttempts := pruneLedger s.restartAttempts now,
                     circuitBroken := true },
            [Output.logged "circuit breaker open"])
       ∧ ∀ o ∈ (spawnWhisper s now).2, isSpawn o = false)
    ∧ ((pruneLedger s.restartAttempts now).length < MAX_RESTART_ATTEMPTS →
       spawnWhisper s now
         = ({ s with restartAttempts := pruneLedger s.restartAttempts now ++ [now],
                     ready := false, whisperProcess := true },
            [Output.logged "Starting Whisper server", Output.spawned s.whisperModel])) := by
  constructor
  · intro hge
    constructor
    · simp [spawnWhisper, h, hge]
    · intro o ho
      simp [spawnWhisper, h, hge] at ho
      simp [ho, isSpawn]
  · intro hlt
    have hnot : ¬ MAX_RESTART_ATTEMPTS ≤ (pruneLedger s.restartAttempts now).length :=
      Nat.not_le.mpr hlt
    simp [spawnWhisper, h, hnot]

/-- Witness for the amended C2: on the 6th attempt within the window
(5 ms after five attempts at 0..4 ms) the breaker trips and no spawn is
performed. -/
theorem breaker_trips_witness :
    spawnWhisper attemptsFiveState 5
      = ({ attemptsFiveState with restartAttempts := [0, 1, 2, 3, 4],
                                  circuitBroken := true },
         [Output.logged "circuit breaker open"])
    ∧ ∀ o ∈ (spawnWhisper attemptsFiveState 5).2, isSpawn o = false := by
  have h := (breaker_trips_on_sixth_inwindow_attempt attemptsFiveState 5 (by decide)).1
    (by decide)
  exact ⟨h.1.trans (by decide), h.2⟩

/-- The state left behind by stopWhisper from a ready supervisor: the
breaker flag is set and is never reset by any later code path. -/
def stoppedState : WhisperState :=
  (stopWhisper readyState).1

/-- C3 evaluated on the code: after the breaker has opened (here via
stopWhisper, which sets the flag), an explicit startWhisper call does
NOT spawn a new worker — spawnWhisper observes the flag and returns
immediately, and nothing ever resets it — contradicting the documented
contract that start() exits CircuitBroken by attempting a fresh spawn. -/
theorem start_while_circuitBroken_refuses_spawn :
    stoppedState.circuitBroken = true
    ∧ startWhisper stoppedState (some "large") 9000
        = ({ stoppedState with whisperModel := "large" },
           [Output.logged "Whisper circuit breaker open, not restarting"])
    ∧ (startWhisper stoppedState (some "large") 9000).2.filter isSpawn = []
    ∧ (startWhisper stoppedState (some "large") 9000).1.whisperProcess = false
    ∧ (startWhisper stoppedState (some "large") 9000).1.circuitBroken = true := by
  decide

/-! Helper lemmas for the correlation and exactly-once proofs. -/

theorem mkReqId_isEmpty_false (n : Nat) : (mkReqId n).isEmpty = false := by
  cases he : (mkReqId n).isEmpty
  · rfl
  · exfalso
    rw [String.isEmpty_iff] at he
    have hlen : (mkReqId n).length = 4 + (toString n).length := by
      simp [mkReqId, String.length_append]
      decide
    rw [he] at hlen
    simp at hlen
    omega

theorem truthy_mkReqId (n : Nat) : truthy (.str (mkReqId n)) = true := by
  simp [truthy, mkReqId_isEmpty_false]

theorem insertKey_contains (l : List String) (k : String) :
    (insertKey l k).contains k = true := by
  by_cases h : l.contains k <;> simp_all [insertKey]

theorem mem_insertKey_of_mem {l : List String} {a : String} (k : String)
    (h : a ∈ l) : a ∈ insertKey l k := by
  by_cases hc : k ∈ l <;> simp [insertKey, hc, List.mem_append, h]

theorem insertKey_nodup {l : List String} (k : String) (h : l.Nodup) :
    (insertKey l k).Nodup := by
  by_cases hc : k ∈ l
  · simpa [insertKey, hc]
  · simp [insertKey, hc, List.nodup_append, h]

theorem lookupPending_mem {p : List String} {v : JsVal} {k : String}
    (h : lookupPending p v = some k) : k ∈ p := by
  cases v <;> simp_all [lookupPending]
  rcases h with ⟨h1, h2⟩
  exact h2 ▸ h1

theorem transcribe_ready_eq (s : WhisperState) (f : String)
    (h : isWhisperReady s = true) :
    transcribe s f
      = ({ s with requestCounter := s.requestCounter + 1,
                  pendingRequests :=
                    insertKey s.pendingRequests (mkReqId (s.requestCounter + 1)) },
         [Output.wrote { id := mkReqId (s.requestCounter + 1), file := f }]) := by
  cases hr : s.ready <;> cases hp : s.whisperProcess <;> cases hb : s.circuitBroken <;>
    simp_all [isWhisperReady, transcribe]

theorem nodup_not_mem_erase {l : List String} {a : String}
    (h : l.Nodup) (hm : a ∈ l) : a ∉ l.erase a := by
  have h0 : (l.erase a).count a = 0 := by
    rw [List.count_erase_self, List.count_eq_one_of_mem h hm]
  exact List.count_eq_zero.mp h0

/-- C9: round-trip of the identifier through the wire protocol. While
ready, transcribe registers a fresh identifier and writes exactly the
request object carrying it; a worker response line echoing that object's
id decodes back to the same identifier, and dispatching it settles
exactly the entry registered for it — one terminal callback for that id,
none for any other, the entry removed, every other pending entry kept. -/
theorem request_id_roundtrip (s : WhisperState) (f : String) (text : JsVal)
    (hready : isWhisperReady s = true) (hnd : s.pendingRequests.Nodup) :
    let id := mkReqId (s.requestCounter + 1)
    let req : RequestMsg := { id := id, file := f }
    let s' := (transcribe s f).1
    let settled := handleLine s' (some (echoResponse req .undefined text))
    (transcribe s f).2 = [Output.wrote req]
    ∧ (echoResponse req .undefined text).id = .str id
    ∧ settled
        = ({ s' with pendingRequests := s'.pendingRequests.erase id },
           [Output.resolved id (if truthy text then text else .str "")])
    ∧ terminalsFor id settled.2 = 1
    ∧ (∀ j, j ≠ id → terminalsFor j settled.2 = 0)
    ∧ id ∉ settled.1.pendingRequests
    ∧ ∀ j ∈ s.pendingRequests, j ≠ id → j ∈ settled.1.pendingRequests := by
  intro id req s' settled
  have htr := transcribe_ready_eq s f hready
  have hs' : s' = { s with requestCounter := s.requestCounter + 1,
                           pendingRequests := insertKey s.pendingRequests id } := by
    simp [s', htr]
  have hpend : s'.pendingRequests = insertKey s.pendingRequests id := by rw [hs']
  have hmem : id ∈ s'.pendingRequests := by
    rw [hpend]
    simpa using insertKey_contains s.pendingRequests id
  have hnd' : s'.pendingRequests.Nodup := by
    rw [hpend]; exact insertKey_nodup id hnd
  have hsettled : settled
      = ({ s' with pendingRequests := s'.pendingRequests.erase id },
         [Output.resolved id (if truthy text then text else .str "")]) := by
    have hry : truthy (echoResponse req .undefined text).ready = false := by
      simp [echoResponse, truthy]
    have hidv : (echoResponse req .undefined text).id = .str id := by
      simp [echoResponse, req]
    have herr : truthy (echoResponse req .undefined text).error = false := by
      simp [echoResponse, truthy]
    have htxt : (echoResponse req .undefined text).text = text := by
      simp [echoResponse]
    simp [settled, handleLine, hry, hidv, herr, htxt, truthy_mkReqId,
          lookupPending, hmem, id]
  refine ⟨?_, ?_, hsettled, ?_, ?_, ?_, ?_⟩
  · simp [htr, req, id]
  · simp [echoResponse, req]
  · simp [hsettled, terminalsFor, isTerminalFor]
  · intro j hj
    simp [hsettled, terminalsFor, isTerminalFor, List.countP_cons]
    exact fun hEq => (hj hEq.symm).elim
  · rw [hsettled]
    exact nodup_not_mem_erase hnd' hmem
  · intro j hjmem hjne
    rw [hsettled]
    simp only
    have hj' : j ∈ s'.pendingRequests := by
      rw [hpend]; exact mem_insertKey_of_mem id hjmem
    exact (List.mem_erase_of_ne hjne).2 hj'

/-- A ready state with one pending request and counter 1. -/
def onePendingState : WhisperState :=
  { readyState with pendingRequests := ["req-1"], requestCounter := 1 }

/-- Witness for C9: registering a request in a concrete ready state with
"req-1" already pending, then dispatching the worker's echo of the new
request "req-2", resolves exactly "req-2" and keeps "req-1" pending. -/
theorem request_id_roundtrip_witness :
    (transcribe onePendingState "b.wav").2
      = [Output.wrote { id := "req-2", file := "b.wav" }]
    ∧ terminalsFor "req-2"
        (handleLine (transcribe onePendingState "b.wav").1
          (some (echoResponse { id := "req-2", file := "b.wav" } .undefined
            (.str "hello")))).2 = 1
    ∧ terminalsFor "req-1"
        (handleLine (transcribe onePendingState "b.wav").1
          (some (echoResponse { id := "req-2", file := "b.wav" } .undefined
            (.str "hello")))).2 = 0
    ∧ "req-1" ∈ (handleLine (transcribe onePendingState "b.wav").1
          (some (echoResponse { id := "req-2", file := "b.wav" } .undefined
            (.str "hello")))).1.pendingRequests := by
  have h := request_id_roundtrip onePendingState "b.wav" (.str "hello")
    (by decide) (by decide)
  refine ⟨h.1, ?_, ?_, ?_⟩
  · exact h.2.2.2.1
  · exact h.2.2.2.2.1 "req-1" (by decide)
  · exact h.2.2.2.2.2.2 "req-1" (by decide) (by decide)

/-! Algebra of terminal-callback counts. -/

theorem terminalsFor_nil (id : String) : terminalsFor id [] = 0 := rfl

theorem terminalsFor_cons (id : String) (o : Output) (l : List Output) :
    terminalsFor id (o :: l)
      = terminalsFor id l + (if isTerminalFor id o then 1 else 0) := by
  simp [terminalsFor, List.countP_cons]

theorem terminalsFor_append (id : String) (l1 l2 : List Output) :
    terminalsFor id (l1 ++ l2) = terminalsFor id l1 + terminalsFor id l2 := by
  simp [terminalsFor, List.countP_append]

theorem spawnWhisper_no_terminals (s : WhisperState) (now : Nat) (id : String) :
    terminalsFor id (spawnWhisper s now).2 = 0 := by
  cases hb : s.circuitBroken
  · by_cases h2 : MAX_RESTART_ATTEMPTS ≤ (pruneLedger s.restartAttempts now).length <;>
      simp [spawnWhisper, hb, h2, terminalsFor, isTerminalFor]
  · simp [spawnWhisper, hb, terminalsFor, isTerminalFor]

theorem spawnWhisper_pending (s : WhisperState) (now : Nat) :
    (spawnWhisper s now).1.pendingRequests = s.pendingRequests := by
  cases hb : s.circuitBroken
  · by_cases h2 : MAX_RESTART_ATTEMPTS ≤ (pruneLedger s.restartAttempts now).length <;>
      simp [spawnWhisper, hb, h2]
  · simp [spawnWhisper, hb]

theorem startWhisper_no_terminals (s : WhisperState) (m : Option String) (now : Nat)
    (id : String) : terminalsFor id (startWhisper s m now).2 = 0 := by
  cases m with
  | none => simpa [startWhisper] using spawnWhisper_no_terminals s now id
  | some v =>
    by_cases hv : v.isEmpty <;> simp [startWhisper, hv, spawnWhisper_no_terminals]

theorem startWhisper_pending (s : WhisperState) (m : Option String) (now : Nat) :
    (startWhisper s m now).1.pendingRequests = s.pendingRequests := by
  cases m with
  | none => simpa [startWhisper] using spawnWhisper_pending s now
  | some v =>
    by_cases hv : v.isEmpty <;> simp [startWhisper, hv, spawnWhisper_pending]

theorem handleLine_matched (s : WhisperState) (data : LineData) (k : String)
    (h1 : truthy data.ready = false) (h2 : truthy data.id = true)
    (hl : lookupPending s.pendingRequests data.id = some k) :
    (handleLine s (some data)).1.pendingRequests = s.pendingRequests.erase k
    ∧ (handleLine s (some data)).2
        = [if truthy data.error then Output.rejected k (.workerError data.error)
           else Output.resolved k (if truthy data.text then data.text else .str "")] := by
  cases h3 : truthy data.error <;> simp [handleLine, h1, h2, hl, h3]

/-- A step can fire no terminal callback for an id that is not pending:
once an entry has been removed — by a response, its timeout, a bulk
failure, or stop — every later handler observes a no-op for it. -/
theorem step_no_terminal_when_absent (s : WhisperState) (e : Event) (id : String)
    (h : id ∉ s.pendingRequests) : terminalsFor id (step s e).2 = 0 := by
  have h0 : s.pendingRequests.count id = 0 := List.count_eq_zero_of_not_mem h
  cases e with
  | line d =>
    cases d with
    | none => simp [step, handleLine, terminalsFor, isTerminalFor]
    | some data =>
      cases h1 : truthy data.ready
      · cases h2 : truthy data.id
        · simp [step, handleLine, h1, h2, terminalsFor]
        · cases hl : lookupPending s.pendingRequests data.id with
          | none => simp [step, handleLine, h1, h2, hl, terminalsFor]
          | some k =>
            have hk : k ∈ s.pendingRequests := lookupPending_mem hl
            have hne : (k == id) = false :=
              beq_eq_false_iff_ne.mpr fun hEq => h (hEq ▸ hk)
            rcases handleLine_matched s data k h1 h2 hl with ⟨-, houts⟩
            cases h3 : truthy data.error <;>
              simp [step, houts, h3, terminalsFor_cons, terminalsFor_nil,
                    isTerminalFor, hne]
      · simp [step, handleLine, h1, terminalsFor, isTerminalFor]
  | timerFires j =>
    cases hc : s.pendingRequests.contains j
    · have hj : j ∉ s.pendingRequests := by simpa using hc
      simp [step, handleTimeout, hj, terminalsFor]
    · have hj : j ∈ s.pendingRequests := by simpa using hc
      have hne : (j == id) = false :=
        beq_eq_false_iff_ne.mpr fun hEq => h (hEq ▸ hj)
      simp [step, handleTimeout, hj, terminalsFor_cons, terminalsFor_nil,
            isTerminalFor, hne]
  | transcribeCall f =>
    cases hr : (!s.ready || !s.whisperProcess || s.circuitBroken) <;>
      simp [step, transcribe, hr, terminalsFor, isTerminalFor]
  | stopCall =>
    cases hp : s.whisperProcess <;>
      simp [step, stopWhisper, hp, terminalsFor_append, terminalsFor_rejected_map,
            terminalsFor_cons, terminalsFor_nil, isTerminalFor, h0]
  | startCall m now => simp [step, startWhisper_no_terminals]
  | exitEvt =>
    cases hb : s.circuitBroken <;>
      simp [step, handleExit, rejectAllPending, hb, terminalsFor_append,
            terminalsFor_rejected_map, terminalsFor_cons, terminalsFor_nil,
            isTerminalFor, h0]
  | errorEvt now =>
    simp [step, handleError, rejectAllPending, terminalsFor_append,
          terminalsFor_rejected_map, terminalsFor_cons, terminalsFor_nil,
          isTerminalFor, h0, spawnWhisper_no_terminals]
  | respawnFires now => simp [step, spawnWhisper_no_terminals]

/-- Each step either leaves a pending entry in place firing no terminal
callback for it, or removes it firing exactly one. -/
theorem step_pending_preserved_or_terminated (s : WhisperState) (e : Event)
    (id : String) (hnd : s.pendingRequests.Nodup) (hid : id ∈ s.pendingRequests) :
    (id ∈ (step s e).1.pendingRequests ∧ terminalsFor id (step s e).2 = 0)
    ∨ (id ∉ (step s e).1.pendingRequests ∧ terminalsFor id (step s e).2 = 1) := by
  have h1count : s.pendingRequests.count id = 1 := List.count_eq_one_of_mem hnd hid
  cases e with
  | line d =>
    cases d with
    | none => left; simp [step, handleLine, hid, terminalsFor, isTerminalFor]
    | some data =>
      cases h1 : truthy data.ready
      · cases h2 : truthy data.id
        · left; simp [step, handleLine, h1, h2, hid, terminalsFor]
        · cases hl : lookupPending s.pendingRequests data.id with
          | none => left; simp [step, handleLine, h1, h2, hl, hid, terminalsFor]
          | some k =>
            rcases handleLine_matched s data k h1 h2 hl with ⟨hstate, houts⟩
            by_cases hk : k = id
            · right
              subst hk
              refine ⟨?_, ?_⟩
              · rw [show (step s (.line (some data))).1 = (handleLine s (some data)).1
                      from rfl, hstate]
                exact nodup_not_mem_erase hnd hid
              · rw [show (step s (.line (some data))).2 = (handleLine s (some data)).2
                      from rfl, houts]
                cases h3 : truthy data.error <;>
                  simp [terminalsFor_cons, terminalsFor_nil, isTerminalFor, h3]
            · left
              refine ⟨?_, ?_⟩
              · rw [show (step s (.line (some data))).1 = (handleLine s (some data)).1
                      from rfl, hstate]
                exact (List.mem_erase_of_ne fun hEq => hk hEq.symm).2 hid
              · rw [show (step s (.line (some data))).2 = (handleLine s (some data)).2
                      from rfl, houts]
                have hne : (k == id) = false := beq_eq_false_iff_ne.mpr hk
                cases h3 : truthy data.error <;>
                  simp [terminalsFor_cons, terminalsFor_nil, isTerminalFor, h3, hne]
      · left; simp [step, handleLine, h1, hid, terminalsFor, isTerminalFor]
  | timerFires j =>
    cases hc : s.pendingRequests.contains j
    · have hj : j ∉ s.pendingRequests := by simpa using hc
      left; simp [step, handleTimeout, hj, hid, terminalsFor]
    · have hj : j ∈ s.pendingRequests := by simpa using hc
      by_cases hk : j = id
      · right
        subst hk
        refine ⟨?_, ?_⟩
        · simpa [step, handleTimeout, hj] using nodup_not_mem_erase hnd hid
        · simp [step, handleTimeout, hj, terminalsFor_cons, terminalsFor_nil,
                isTerminalFor]
      · left
        have hne : (j == id) = false := beq_eq_false_iff_ne.mpr hk
        refine ⟨?_, ?_⟩
        · simpa [step, handleTimeout, hj] using
            (List.mem_erase_of_ne fun hEq => hk hEq.symm).2 hid
        · simp [step, handleTimeout, hj, terminalsFor_cons, terminalsFor_nil,
                isTerminalFor, hne]
  | transcribeCall f =>
    left
    cases hr : (!s.ready || !s.whisperProcess || s.circuitBroken)
    · refine ⟨?_, ?_⟩
      · simpa [step, transcribe, hr] using
          mem_insertKey_of_mem (mkReqId (s.requestCounter + 1)) hid
      · simp [step, transcribe, hr, terminalsFor, isTerminalFor]
    · simp [step, transcribe, hr, hid, terminalsFor, isTerminalFor]
  | stopCall =>
    right
    cases hp : s.whisperProcess <;>
      simp [step, stopWhisper, hp, terminalsFor_append, terminalsFor_rejected_map,
            terminalsFor_cons, terminalsFor_nil, isTerminalFor, h1count]
  | startCall m now =>
    left
    refine ⟨?_, by simp [step, startWhisper_no_terminals]⟩
    have hp := startWhisper_pending s m now
    simpa [step, hp]
  | exitEvt =>
    right
    cases hb : s.circuitBroken <;>
      simp [step, handleExit, rejectAllPending, hb, terminalsFor_append,
            terminalsFor_rejected_map, terminalsFor_cons, terminalsFor_nil,
            isTerminalFor, h1count]
  | errorEvt now =>
    right
    refine ⟨?_, ?_⟩
    · simp [step, handleError, rejectAllPending, spawnWhisper_pending]
    · simp [step, handleError, rejectAllPending, terminalsFor_append,
            terminalsFor_rejected_map, terminalsFor_cons, terminalsFor_nil,
            isTerminalFor, h1count, spawnWhisper_no_terminals]
  | respawnFires now =>
    left
    refine ⟨?_, by simp [step, spawnWhisper_no_terminals]⟩
    have hp := spawnWhisper_pending s now
    simpa [step, hp]

/-- While an entry is pending its armed timer's expiry removes it and
fires exactly one terminal callback (the timeout rejection), so no
registered entry is left dangling. -/
theorem timeout_fires_terminates (s : WhisperState) (id : String)
    (hnd : s.pendingRequests.Nodup) (hid : id ∈ s.pendingRequests) :
    id ∉ (step s (.timerFires id)).1.pendingRequests
    ∧ terminalsFor id (step s (.timerFires id)).2 = 1 := by
  refine ⟨?_, ?_⟩
  · simpa [step, handleTimeout, hid] using nodup_not_mem_erase hnd hid
  · simp [step, handleTimeout, hid, terminalsFor_cons, terminalsFor_nil,
          isTerminalFor]

/-- Every step preserves distinctness of the pending identifiers (the
source's pending map cannot hold two entries for one key). -/
theorem step_preserves_nodup (s : WhisperState) (e : Event)
    (hnd : s.pendingRequests.Nodup) : (step s e).1.pendingRequests.Nodup := by
  cases e with
  | line d =>
    cases d with
    | none => simpa [step, handleLine]
    | some data =>
      cases h1 : truthy data.ready
      · cases h2 : truthy data.id
        · simpa [step, handleLine, h1, h2]
        · cases hl : lookupPending s.pendingRequests data.id with
          | none => simpa [step, handleLine, h1, h2, hl]
          | some k =>
            rcases handleLine_matched s data k h1 h2 hl with ⟨hstate, -⟩
            rw [show (step s (.line (some data))).1 = (handleLine s (some data)).1
                  from rfl, hstate]
            exact hnd.erase k
      · simpa [step, handleLine, h1]
  | timerFires j =>
    cases hc : s.pendingRequests.contains j
    · have hj : j ∉ s.pendingRequests := by simpa using hc
      simpa [step, handleTimeout, hj]
    · have hj : j ∈ s.pendingRequests := by simpa using hc
      simpa [step, handleTimeout, hj] using hnd.erase j
  | transcribeCall f =>
    cases hr : (!s.ready || !s.whisperProcess || s.circuitBroken)
    · simpa [step, transcribe, hr] using
        insertKey_nodup (mkReqId (s.requestCounter + 1)) hnd
    · simpa [step, transcribe, hr]
  | stopCall =>
    cases hp : s.whisperProcess <;> simp [step, stopWhisper, hp]
  | startCall m now =>
    have hp := startWhisper_pending s m now
    simpa [step, hp]
  | exitEvt =>
    cases hb : s.circuitBroken <;> simp [step, handleExit, rejectAllPending, hb]
  | errorEvt now =>
    simp [step, handleError, rejectAllPending, spawnWhisper_pending]
  | respawnFires now =>
    have hp := spawnWhisper_pending s now
    simpa [step, hp]

/-- C1: every registered pending request receives exactly one terminal
callback over its lifetime. Conjuncts: (1) no handler fires a terminal
callback for an id that is not pending — so after any removal, a racing
late response or timer expiry observes a no-op; (2) each handler either
keeps a pending entry with no terminal callback for it, or removes it
firing exactly one (a matching response, its timeout, a bulk failure on
worker exit/error, or stop); (3) while an entry is pending its armed
timeout removes it and fires exactly one terminal callback, so no entry
dangles forever; (4) distinctness of pending identifiers is preserved
from the initial (empty) map by every handler. -/
theorem registered_request_exactly_one_terminal :
    (∀ (s : WhisperState) (e : Event) (id : String),
       id ∉ s.pendingRequests → terminalsFor id (step s e).2 = 0)
    ∧ (∀ (s : WhisperState) (e : Event) (id : String),
         s.pendingRequests.Nodup → id ∈ s.pendingRequests →
           (id ∈ (step s e).1.pendingRequests ∧ terminalsFor id (step s e).2 = 0)
           ∨ (id ∉ (step s e).1.pendingRequests ∧ terminalsFor id (step s e).2 = 1))
    ∧ (∀ (s : WhisperState) (id : String),
         s.pendingRequests.Nodup → id ∈ s.pendingRequests →
           id ∉ (step s (.timerFires id)).1.pendingRequests
           ∧ terminalsFor id (step s (.timerFires id)).2 = 1)
    ∧ (∀ (s : WhisperState) (e : Event),
         s.pendingRequests.Nodup → (step s e).1.pendingRequests.Nodup)
    ∧ initialState.pendingRequests.Nodup :=
  ⟨step_no_terminal_when_absent,
   step_pending_preserved_or_terminated,
   timeout_fires_terminates,
   step_preserves_nodup,
   List.nodup_nil⟩

/-- Witness for C1 at concrete states: the timer for pending "req-1"
fires exactly one terminal callback and removes the entry, after which
the late response line for "req-1" fires none (the race resolves to a
no-op for the loser); a timer fire for the unregistered "req-9" also
fires none. -/
theorem registered_request_exactly_one_terminal_witness :
    (terminalsFor "req-1" (step twoPendingState (.timerFires "req-1")).2 = 1
      ∧ "req-1" ∉ (step twoPendingState (.timerFires "req-1")).1.pendingRequests)
    ∧ terminalsFor "req-1"
        (step (step twoPendingState (.timerFires "req-1")).1
          (.line (some { id := .str "req-1", text := .str "late" }))).2 = 0
    ∧ terminalsFor "req-9" (step twoPendingState (.timerFires "req-9")).2 = 0 := by
  refine ⟨?_, ?_, ?_⟩
  · have h := registered_request_exactly_one_terminal.2.2.1 twoPendingState "req-1"
      (by decide) (by decide)
    exact ⟨h.2, h.1⟩
  · exact registered_request_exactly_one_terminal.1
      (step twoPendingState (.timerFires "req-1")).1
      (.line (some { id := .str "req-1", text := .str "late" })) "req-1" (by decide)
  · exact registered_request_exactly_one_terminal.1 twoPendingState
      (.timerFires "req-9") "req-9" (by decide)
